import Mathlib

/-!
Verification development for the FHEVM dapp's provisioning/cache core.

The definitions below are a shallow embedding of the repository's
TypeScript source:

* `PublicKeyStorage` (src/fhevm/internal/PublicKeyStorage.ts): the
  two-tier expiring public-key cache.  The volatile tier is
  `PKState.memoryCache`; the persistent tier (the JSON table held under
  the single `fhevm_public_keys` key of `GenericStringStorage`) is
  `PKState.stored`, modelled in parsed form.  Persistent-tier I/O
  failures are injected through `IOEnv`; `GenericStringStorage.get`
  catches its own failures and returns null, while `set` and `delete`
  rethrow, exactly as in src/fhevm/GenericStringStorage.ts.
* `createFhevmInstance` (the builder sequence in the same file): an
  explicit timeline of the suspension points and abort-signal checks.
* the `useFhevm` hook (src/unnamed/part_000): `refresh`,
  the main effect, and the promise resolution handlers.
* the session facade's validating wrappers `encrypt32` / `encrypt64` /
  `encryptBool`.

Machine integers are modelled as `Int`/`Nat`; JavaScript truthiness of
optional numbers and strings is made explicit (`truthyN`, `truthyS`).
-/

/-- A cache entry: `{ publicKey, timestamp }` as stored by
`PublicKeyStorage`.  `timestamp` is a `Date.now()` millisecond value. -/
structure CacheEntry where
  publicKey : String
  timestamp : Int
deriving DecidableEq, Repr

/-- The TTL `PublicKeyStorage.CACHE_DURATION = 24 * 60 * 60 * 1000` (24 hours). -/
def CACHE_DURATION : Int := 24 * 60 * 60 * 1000

/-- Validity check `isValidCacheEntry`: `(now - entry.timestamp) < CACHE_DURATION`. -/
def isValidCacheEntry (now : Int) (e : CacheEntry) : Bool :=
  now - e.timestamp < CACHE_DURATION

/-- The parsed persistent table (a JS object keyed by cache key),
modelled as an association list. -/
abbrev Table := List (String × CacheEntry)

/-- Lookup in a table (JS property read `parsedData[cacheKey]`). -/
def tableGet (t : Table) (k : String) : Option CacheEntry :=
  (t.find? (fun p => p.1 = k)).map (fun p => p.2)

/-- Replace key `k`'s entry, leaving all other keys untouched
(JS property write `storedData[cacheKey] = entry`). -/
def tableSet (t : Table) (k : String) (e : CacheEntry) : Table :=
  (k, e) :: t.filter (fun p => p.1 ≠ k)

/-- Which underlying IndexedDB operations fail during a call.
`GenericStringStorage.get` catches a failure and returns null;
`set` and `delete` log and rethrow. -/
structure IOEnv where
  getFail : Bool
  setFail : Bool
  delFail : Bool
deriving DecidableEq, Repr

/-- The two tiers of `PublicKeyStorage`: the in-memory `Map` and the
persistent table stored (as JSON) under `STORAGE_KEY`; `none` means the
persistent key is absent. -/
structure PKState where
  memoryCache : Table
  stored : Option Table
deriving DecidableEq, Repr

/-- Underlying `GenericStringStorage.get` on the storage key: returns the raw table
or null; an underlying failure is caught and becomes null. -/
def gssGet (io : IOEnv) (s : PKState) : Option Table :=
  if io.getFail then none else s.stored

/-- Underlying `GenericStringStorage.set` on the storage key: rethrows failures. -/
def gssSet (io : IOEnv) (s : PKState) (t : Table) : Except Unit PKState :=
  if io.setFail then .error () else .ok { s with stored := some t }

/-- Underlying `GenericStringStorage.delete` on the storage key: rethrows failures. -/
def gssDelete (io : IOEnv) (s : PKState) : Except Unit PKState :=
  if io.delFail then .error () else .ok { s with stored := none }

/-- Key canonicalization `getCacheKey(chainId, kmsAddress)`:
`chainId + "_" + (kmsAddress or "default")` in template form - the empty string is
falsy in JavaScript, so it takes the "default" token exactly like an
absent address. -/
def getCacheKey (chainId : Nat) (kmsAddress : Option String) : String :=
  toString chainId ++ "_" ++
    (match kmsAddress with
     | some a => if a = "" then "default" else a
     | none => "default")

/-- Read path `getCachedPublicKey`: memory tier first (value returned if present
and unexpired); otherwise the persistent table is read, the entry
validated, promoted into the memory tier on a valid hit, and returned.
All failure paths are caught and yield null.  The `Except` result
records whether an exception escapes to the caller (it never does). -/
def getCachedPublicKey (io : IOEnv) (now : Int) (chainId : Nat)
    (kms : Option String) (s : PKState) :
    Except Unit (Option String × PKState) :=
  let key := getCacheKey chainId kms
  let persistentLookup : Except Unit (Option String × PKState) :=
    match gssGet io s with
    | some table =>
      match tableGet table key with
      | some e =>
        if isValidCacheEntry now e then
          .ok (some e.publicKey, { s with memoryCache := tableSet s.memoryCache key e })
        else .ok (none, s)
      | none => .ok (none, s)
    | none => .ok (none, s)
  match tableGet s.memoryCache key with
  | some e => if isValidCacheEntry now e then .ok (some e.publicKey, s) else persistentLookup
  | none => persistentLookup

/-- Write path `setCachedPublicKey`: unconditionally writes the memory tier, then
read-merge-writes the persistent table; a persistent-tier failure is
caught and swallowed (the memory write survives). -/
def setCachedPublicKey (io : IOEnv) (now : Int) (chainId : Nat)
    (publicKey : String) (kms : Option String) (s : PKState) :
    Except Unit PKState :=
  let key := getCacheKey chainId kms
  let entry : CacheEntry := ⟨publicKey, now⟩
  let s1 : PKState := { s with memoryCache := tableSet s.memoryCache key entry }
  let storedData : Table := (gssGet io s1).getD []
  match gssSet io s1 (tableSet storedData key entry) with
  | .ok s2 => .ok s2
  | .error _ => .ok s1

/-- Expiry sweep `cleanupExpiredEntries`: loads the persistent table (early return if
absent), partitions by TTL, prunes the memory tier, and rewrites the
persistent table when anything expired; every failure is caught. -/
def cleanupExpiredEntries (io : IOEnv) (now : Int) (s : PKState) :
    Except Unit PKState :=
  match gssGet io s with
  | none => .ok s
  | some table =>
    let cleanedData := table.filter (fun p => isValidCacheEntry now p.2)
    let persistentChanged := table.any (fun p => ¬ isValidCacheEntry now p.2)
    let memoryChanged := s.memoryCache.any (fun p => ¬ isValidCacheEntry now p.2)
    let s1 : PKState :=
      { s with memoryCache := s.memoryCache.filter (fun p => isValidCacheEntry now p.2) }
    if persistentChanged || memoryChanged then
      match gssSet io s1 cleanedData with
      | .ok s2 => .ok s2
      | .error _ => .ok s1
    else .ok s1

/-- Invalidation `clearAll`: clears the memory tier and deletes the persistent key.
There is no try/catch here, and `GenericStringStorage.delete` rethrows,
so a persistent-tier failure propagates to the caller. -/
def clearAll (io : IOEnv) (s : PKState) : Except Unit PKState :=
  let s1 : PKState := { s with memoryCache := [] }
  match gssDelete io s1 with
  | .ok s2 => .ok s2
  | .error e => .error e

/-- The record returned by `getCacheStats`. -/
structure CacheStats where
  memoryEntries : Nat
  persistentEntries : Nat
  validEntries : Nat
  expiredEntries : Nat
deriving DecidableEq, Repr

/-- Diagnostics `getCacheStats`: counts per tier; every failure is caught and the
zero counts are reported for the persistent tier. -/
def getCacheStats (io : IOEnv) (now : Int) (s : PKState) :
    Except Unit CacheStats :=
  let counts : Nat × Nat × Nat :=
    match gssGet io s with
    | some table =>
      (table.length,
       (table.filter (fun p => isValidCacheEntry now p.2)).length,
       (table.filter (fun p => ¬ isValidCacheEntry now p.2)).length)
    | none => (0, 0, 0)
  .ok ⟨s.memoryCache.length, counts.1, counts.2.1, counts.2.2⟩

/-- Entry for key `k` in the persistent tier of `s`, if any. -/
def storedGet (s : PKState) (k : String) : Option CacheEntry :=
  s.stored.bind (fun t => tableGet t k)

/-- Whether an `Except` result is a normal return (no exception). -/
def isOkE {ε α : Type} : Except ε α → Bool
  | .ok _ => true
  | .error _ => false

/-!  The `createFhevmInstance` construction sequence.

The sequence is embedded as a function of an environment describing the
call's options and the outcome of every external interaction, plus an
abort timeline: program points are numbered in source order, and
`abortTime = some a` means the externally supplied `AbortSignal` flips
to aborted at point `a` and stays aborted.  The six explicit
`if (signal?.aborted) throw` checks of the source sit at points
0, 2, 4, 6, 8 and 10; the awaited external calls sit at the odd points
(SDK load 1, network query 3, cache cleanup/read 5, `initSDK` 7,
`createInstance` 9, `getPublicKey` 11), the write-through at point 12,
and promise resolution in the hook at point 13. -/

/-- JS truthiness of an optional number (`undefined` and `0` are falsy). -/
def truthyN : Option Nat → Bool
  | none => false
  | some n => n != 0

/-- JS truthiness of an optional string (`undefined` and `""` are falsy). -/
def truthyS : Option String → Bool
  | none => false
  | some s => s != ""

/-- Whether the abort signal reads as aborted at program point `t`. -/
def sigAborted (abortTime : Option Nat) (t : Nat) : Bool :=
  match abortTime with
  | some a => a ≤ t
  | none => false

/-- The configuration object handed to `initSDK` / `createInstance`:
one of the three mutually exclusive shapes chosen by chain id. -/
inductive SdkConfig where
  /-- spread of the external `SepoliaConfig` plus the provider. -/
  | sepolia
  /-- The shape `{ chainId, rpcUrl, provider, mockMode: true }`. -/
  | mock (chainId : Nat) (rpcUrl : String)
  /-- The shape `{ chainId: actualChainId || 1337, provider, publicKey,
  kmsContractAddress, aclContractAddress }`. -/
  | generic (chainId : Nat) (publicKey : Option String)
      (kms : Option String) (acl : Option String)
deriving DecidableEq, Repr

/-- Externally observable actions of one construction run: calls into
the external builder and mutations of the shared persistent store.  The
in-memory cache tier is private to the run (a fresh `PublicKeyStorage`
is constructed inside `createFhevmInstance`), so only persistent-tier
writes appear here. -/
inductive Effect where
  /-- The `cleanupExpiredEntries` call rewrote the persistent table. -/
  | cleanupWrite
  /-- The call `relayerSDK.initSDK(sdkConfig)`. -/
  | initCall (cfg : SdkConfig)
  /-- The call `relayerSDK.createInstance(sdkConfig)`. -/
  | createCall (cfg : SdkConfig)
  /-- The `setCachedPublicKey(chainId, key, kms)` write-through of the
  authoritative public key fetched after construction. -/
  | writeThrough (chainId : Nat) (kms : Option String) (value : String)
deriving DecidableEq, Repr

/-- Typed failures `createFhevmInstance` can raise. -/
inductive FhevmErr where
  | aborted
  | sdkLoadFailed
  | sdkUnavailable
  | initFailed
  | createFailed
deriving DecidableEq, Repr

/-- Environment of one `createFhevmInstance` call: its options and the
outcome of each external interaction. -/
structure RunEnv where
  abortTime : Option Nat
  chainId : Option Nat
  provider : Option Nat
  mockChains : List (Nat × String)
  publicKeyOrAddress : Option String
  kmsContractAddress : Option String
  aclContractAddress : Option String
  sdkLoadOk : Bool
  sdkOnWindow : Bool
  /-- The `provider.getNetwork()` outcome; `none` means the query throws. -/
  networkResult : Option Nat
  /-- whether `cleanupExpiredEntries` finds changes and rewrites. -/
  cleanupChanges : Bool
  /-- The `getCachedPublicKey` result (null for a miss). -/
  cachedKey : Option String
  initOk : Bool
  createOk : Bool
  hasGetPublicKey : Bool
  /-- The `fhevmInstance.getPublicKey()` outcome; `none` covers both a
  thrown error (caught and absorbed) and a falsy result. -/
  retrievedKey : Option String
deriving DecidableEq, Repr

/-- The `mockChains[chainId]` lookup. -/
def lookupMock (l : List (Nat × String)) (n : Nat) : Option String :=
  (l.find? (fun p => p.1 = n)).map (fun p => p.2)

/-- The chain id after the detection step: if none was supplied and a
provider is present, the provider is queried; a query failure is
absorbed and leaves the chain id as supplied. -/
def detectChainId (env : RunEnv) : Option Nat :=
  if !truthyN env.chainId && env.provider.isSome then
    match env.networkResult with
    | some n => some n
    | none => env.chainId
  else env.chainId

/-- The key used to seed the configuration: the explicit
`publicKeyOrAddress` if truthy, else the cache lookup result (only
performed when a truthy chain id is known). -/
def seedKey (env : RunEnv) (acid : Option Nat) : Option String :=
  if !truthyS env.publicKeyOrAddress && truthyN acid then env.cachedKey
  else env.publicKeyOrAddress

/-- The fallback `actualChainId || 1337`. -/
def genericChainId (acid : Option Nat) : Nat :=
  match acid with
  | some n => if n ≠ 0 then n else 1337
  | none => 1337

/-- The three-way configuration selection of `createFhevmInstance`. -/
def selectCfg (env : RunEnv) (acid : Option Nat) (pk : Option String) :
    SdkConfig :=
  if acid = some 11155111 then .sepolia
  else
    match acid with
    | some n =>
      if n ≠ 0 then
        match lookupMock env.mockChains n with
        | some url =>
          if url ≠ "" then .mock n url
          else .generic (genericChainId acid) pk env.kmsContractAddress
            env.aclContractAddress
        | none => .generic (genericChainId acid) pk env.kmsContractAddress
            env.aclContractAddress
      else .generic (genericChainId acid) pk env.kmsContractAddress
        env.aclContractAddress
    | none => .generic (genericChainId acid) pk env.kmsContractAddress
        env.aclContractAddress

/-- The write-through after construction: only when a truthy chain id is
known and the instance exposes `getPublicKey`; a truthy retrieved key
that differs from the seed key is written through the cache.  There is
no abort-signal check in this region of the source. -/
def writeThroughEffects (env : RunEnv) (acid : Option Nat)
    (pk : Option String) : List Effect :=
  if truthyN acid && env.hasGetPublicKey then
    match env.retrievedKey with
    | some r =>
      if r ≠ "" && pk ≠ some r then
        [.writeThrough (acid.getD 0) env.kmsContractAddress r]
      else []
    | none => []
  else []

/-- The wrapped-instance facade fields relevant here. -/
structure FhevmInstanceModel where
  /-- captured `actualChainId`; `getChainId()` returns it. -/
  actualChainId : Option Nat
  isSepolia : Bool
  isMock : Bool
  /-- the seed key the configuration carried. -/
  publicKeySeed : Option String
deriving DecidableEq, Repr

/-- The effects of the `cleanupExpiredEntries` call: a rewrite of the
persistent table exactly when expired entries were found. -/
def cleanupEffects (env : RunEnv) : List Effect :=
  if env.cleanupChanges then [.cleanupWrite] else []

/-- The tail of the sequence from the configuration-dependent phase on:
the two-phase builder call with its interleaved signal checks, then the
post-construction key fetch and write-through (which region has no
signal check). -/
def tailPhase (env : RunEnv) (acid : Option Nat) (pk : Option String)
    (cfg : SdkConfig) (effs0 : List Effect) :
    Except FhevmErr FhevmInstanceModel × List Effect :=
  if sigAborted env.abortTime 6 then (.error .aborted, effs0)
  else if !env.initOk then (.error .initFailed, effs0 ++ [.initCall cfg])
  else if sigAborted env.abortTime 8 then
    (.error .aborted, effs0 ++ [.initCall cfg])
  else if !env.createOk then
    (.error .createFailed, effs0 ++ [.initCall cfg, .createCall cfg])
  else if sigAborted env.abortTime 10 then
    (.error .aborted, effs0 ++ [.initCall cfg, .createCall cfg])
  else
    (.ok { actualChainId := acid,
           isSepolia := acid = some 11155111,
           isMock := truthyN acid &&
             truthyS (acid.bind (lookupMock env.mockChains)),
           publicKeySeed := pk },
     effs0 ++ [.initCall cfg, .createCall cfg] ++
       writeThroughEffects env acid pk)

/-- The full `createFhevmInstance` sequence: result and the list of
externally observable effects, in order. -/
def createFhevmInstance (env : RunEnv) :
    Except FhevmErr FhevmInstanceModel × List Effect :=
  if sigAborted env.abortTime 0 then (.error .aborted, [])
  else if !env.sdkLoadOk then (.error .sdkLoadFailed, [])
  else if sigAborted env.abortTime 2 then (.error .aborted, [])
  else if !env.sdkOnWindow then (.error .sdkUnavailable, [])
  else if sigAborted env.abortTime 4 then (.error .aborted, [])
  else
    tailPhase env (detectChainId env) (seedKey env (detectChainId env))
      (selectCfg env (detectChainId env) (seedKey env (detectChainId env)))
      (cleanupEffects env)

/-- Whether the run's result is published by the hook: the `.then`
handler publishes only when the promise fulfils and `thisSignal.aborted`
is still false at resolution time (point 13). -/
def published (env : RunEnv) : Bool :=
  isOkE (createFhevmInstance env).1 && !sigAborted env.abortTime 13

/-!  The session facade's validating encryption wrappers. -/

/-- A dynamically typed JavaScript argument, as far as the wrappers
inspect it: a number (with its `Number.isInteger` status), a bigint, a
boolean, a string, or anything else. -/
inductive JSVal where
  | num (isInt : Bool) (v : Int)
  | big (v : Int)
  | boolv (b : Bool)
  | strv (s : String)
  | undef
deriving DecidableEq, Repr

/-- A delegation to the underlying external instance; producing one of
these is the only way a wrapper invokes the external instance. -/
inductive EncCall where
  | enc32 (v : Int)
  | enc64 (v : Int)
  | encBool (b : Bool)
deriving DecidableEq, Repr

/-- Wrapper `encrypt32`: rejects anything that is not an integer number, then
values outside `[0, 2^32-1]`, then delegates. -/
def encrypt32 (v : JSVal) : Except String EncCall :=
  match v with
  | .num true n =>
    if n < 0 ∨ n > 4294967295 then
      .error "encrypt32 value must be between 0 and 2^32-1"
    else .ok (.enc32 n)
  | _ => .error "encrypt32 requires an integer value"

/-- Wrapper `encrypt64`: rejects anything that is not a bigint, then values
outside `[0, 2^64-1]`, then delegates. -/
def encrypt64 (v : JSVal) : Except String EncCall :=
  match v with
  | .big n =>
    if n < 0 ∨ n > 18446744073709551615 then
      .error "encrypt64 value must be between 0 and 2^64-1"
    else .ok (.enc64 n)
  | _ => .error "encrypt64 requires a bigint value"

/-- Wrapper `encryptBool`: rejects anything that is not a boolean, then
delegates. -/
def encryptBool (v : JSVal) : Except String EncCall :=
  match v with
  | .boolv b => .ok (.encBool b)
  | _ => .error "encryptBool requires a boolean value"

/-!  The `useFhevm` hook (src/unnamed/part_000).

State and the three pieces of behaviour the claims are about:
`refresh` (abort-then-resnapshot), the main effect (attempt creation),
and the promise resolution handlers (`.then` / `.catch`).  Providers
are modelled as opaque numeric references; an `AbortController` is its
numeric id, and a signal reads aborted exactly when its id has entered
the `aborted` set.  `refresh` picks ids freshly from `nextId`. -/

/-- The `FhevmGoState` status union. -/
inductive GoState where
  | idle
  | loading
  | ready
  | errored
deriving DecidableEq, Repr

/-- A published session object (opaque instance reference). -/
structure Session where
  ref : Nat
deriving DecidableEq, Repr

/-- The hook's state: React state cells, refs and the controller. -/
structure HookState where
  inst : Option Session
  status : GoState
  err : Option String
  providerRef : Option Nat
  chainIdRef : Option Nat
  ctrl : Option Nat
  aborted : List Nat
  nextId : Nat
deriving DecidableEq, Repr

/-- One in-flight construction: the controller id whose signal it
captured and the identity snapshot it started with. -/
structure Attempt where
  ctrlId : Nat
  provider : Nat
  chainId : Option Nat
deriving DecidableEq, Repr

/-- The `refresh` callback: aborts any current controller (clearing the
provider/chainId refs during the abort), re-snapshots the identity, and
resets the observable state to idle. -/
def refresh (p c : Option Nat) (s : HookState) : HookState :=
  let s1 : HookState :=
    match s.ctrl with
    | some cid =>
      { s with providerRef := none, chainIdRef := none,
               aborted := cid :: s.aborted, ctrl := none }
    | none => s
  { s1 with providerRef := p, chainIdRef := c,
            inst := none, err := none, status := .idle }

/-- The main effect in the running state: with no provider it resets to
idle and creates no attempt; otherwise it creates a controller if none
exists, transitions to loading and snapshots the identity into a fresh
attempt. -/
def runMainEffect (s : HookState) : HookState × Option Attempt :=
  match s.providerRef with
  | none => ({ s with inst := none, err := none, status := .idle }, none)
  | some p =>
    match s.ctrl with
    | some cid => ({ s with status := .loading, err := none },
                   some ⟨cid, p, s.chainIdRef⟩)
    | none =>
      ({ s with ctrl := some s.nextId, nextId := s.nextId + 1,
                status := .loading, err := none },
       some ⟨s.nextId, p, s.chainIdRef⟩)

/-- A `start`/refresh with a new identity: `refresh` followed by the
main effect it triggers (which it triggers only when a provider is
supplied). -/
def startOrRefresh (p c : Option Nat) (s : HookState) :
    HookState × Option Attempt :=
  let s1 := refresh p c s
  match p with
  | none => (s1, none)
  | some _ => runMainEffect s1

/-- The `.then` handler of the construction promise: a result whose
signal is aborted is discarded without touching state; otherwise the
handler asserts the provider snapshot is still current (`_assert`
throws an `Error` when it is not) and publishes. -/
def resolveSuccess (a : Attempt) (sess : Session) (s : HookState) :
    Except String HookState :=
  if a.ctrlId ∈ s.aborted then .ok s
  else if s.providerRef ≠ some a.provider then
    .error "Assertion failed: Provider should not have changed during creation"
  else .ok { s with inst := some sess, err := none, status := .ready }

/-- The `.catch` handler: symmetric to `resolveSuccess`, recording the
failure when the attempt is still current. -/
def resolveFailure (a : Attempt) (e : String) (s : HookState) :
    Except String HookState :=
  if a.ctrlId ∈ s.aborted then .ok s
  else if s.providerRef ≠ some a.provider then
    .error "Assertion failed: Provider should not have changed during creation"
  else .ok { s with inst := none, err := some e, status := .errored }

/-!  Concrete sample inputs used to evaluate the definitions. -/

/-- A fully reliable persistent tier. -/
def ioOk : IOEnv := ⟨false, false, false⟩

/-- A persistent tier whose delete operation fails. -/
def ioDelFail : IOEnv := ⟨false, false, true⟩

/-- A state whose memory tier holds one entry stored at time 0. -/
def pkMemOnly : PKState := ⟨[("1_default", ⟨"K", 0⟩)], none⟩

/-- A state whose persistent tier holds one entry stored at time 0. -/
def pkPersistOnly : PKState := ⟨[], some [("1_default", ⟨"K", 0⟩)]⟩

/-- A state whose persistent tier holds entries for two unrelated keys. -/
def pkBC : PKState :=
  ⟨[], some [("7_default", ⟨"B", 0⟩), ("8_default", ⟨"C", 0⟩)]⟩

/-- A run whose abort signal flips during the post-construction
`getPublicKey` await (point 11), after the last signal check. -/
def envAbortDuringKeyFetch : RunEnv :=
  { abortTime := some 11, chainId := some 5, provider := some 1,
    mockChains := [(1337, "http://localhost:8545"), (31337, "http://localhost:8545")],
    publicKeyOrAddress := none, kmsContractAddress := none,
    aclContractAddress := none, sdkLoadOk := true, sdkOnWindow := true,
    networkResult := none, cleanupChanges := false, cachedKey := none,
    initOk := true, createOk := true, hasGetPublicKey := true,
    retrievedKey := some "PK" }

/-- The same run with the abort arriving at point 3, before the
cache-touching phase. -/
def envAbortEarly : RunEnv := { envAbortDuringKeyFetch with abortTime := some 3 }

/-- A run with no chain id supplied and a failing network query. -/
def envNoChainId : RunEnv :=
  { abortTime := none, chainId := none, provider := some 1,
    mockChains := [(1337, "http://localhost:8545"), (31337, "http://localhost:8545")],
    publicKeyOrAddress := none, kmsContractAddress := none,
    aclContractAddress := none, sdkLoadOk := true, sdkOnWindow := true,
    networkResult := none, cleanupChanges := false, cachedKey := none,
    initOk := true, createOk := true, hasGetPublicKey := false,
    retrievedKey := none }

/-- A quiescent hook state. -/
def hookIdle : HookState := ⟨none, .idle, none, none, none, none, [], 0⟩

/-- A hook state whose current provider (2) differs from attempt 0's
snapshot while attempt 0's signal is not aborted. -/
def hookMismatch : HookState := ⟨none, .loading, none, some 2, none, some 0, [], 3⟩

/-- A hook state whose current provider matches attempt 0's snapshot. -/
def hookCurrent : HookState := ⟨none, .loading, none, some 1, none, some 0, [], 3⟩

-- Association-table lemmas.

theorem tableGet_tableSet_self (t : Table) (k : String) (e : CacheEntry) :
    tableGet (tableSet t k e) k = some e := by
  simp [tableGet, tableSet, List.find?]

theorem find?_filter_ne (t : Table) (k k' : String) (h : k' ≠ k) :
    (t.filter (fun p => p.1 ≠ k)).find? (fun p => p.1 = k') =
      t.find? (fun p => p.1 = k') := by
  induction t with
  | nil => rfl
  | cons hd tl ih =>
    by_cases hk : hd.1 = k
    · have h1 : (hd :: tl).filter (fun p => p.1 ≠ k) =
          tl.filter (fun p => p.1 ≠ k) := by
        rw [List.filter_cons_of_neg]
        simp [hk]
      have h2 : ¬ hd.1 = k' := by
        rw [hk]; exact fun hh => h hh.symm
      rw [h1, ih, List.find?_cons_of_neg]
      simp [h2]
    · have h1 : (hd :: tl).filter (fun p => p.1 ≠ k) =
          hd :: tl.filter (fun p => p.1 ≠ k) := by
        rw [List.filter_cons_of_pos]
        simp [hk]
      rw [h1]
      by_cases hh : hd.1 = k'
      · rw [List.find?_cons_of_pos, List.find?_cons_of_pos] <;> simp [hh]
      · rw [List.find?_cons_of_neg, List.find?_cons_of_neg, ih] <;> simp [hh]

theorem tableGet_tableSet_ne (t : Table) (k k' : String) (e : CacheEntry)
    (h : k' ≠ k) : tableGet (tableSet t k e) k' = tableGet t k' := by
  have hne : ¬ (k = k') := fun hh => h hh.symm
  unfold tableGet tableSet
  rw [List.find?_cons_of_neg, find?_filter_ne t k k' h]
  simp [hne]

/-- Closed form of `setCachedPublicKey`: the memory tier is always
updated; the persistent table is merged only when the persistent write
succeeds. -/
theorem setCachedPublicKey_eq (io : IOEnv) (now : Int) (cid : Nat)
    (v : String) (kms : Option String) (s : PKState) :
    setCachedPublicKey io now cid v kms s =
      .ok (if io.setFail then
             { s with memoryCache :=
                 tableSet s.memoryCache (getCacheKey cid kms) ⟨v, now⟩ }
           else
             { memoryCache :=
                 tableSet s.memoryCache (getCacheKey cid kms) ⟨v, now⟩,
               stored := some (tableSet
                 ((if io.getFail then none else s.stored).getD [])
                 (getCacheKey cid kms) ⟨v, now⟩) }) := by
  unfold setCachedPublicKey gssSet gssGet
  by_cases h : io.setFail <;> simp [h]

/-- C4.  TTL correctness in both tiers: if the entry for the cache key,
in whichever tier(s) it is present, is `⟨v, t0⟩` (and it is present in
at least one tier), `getCachedPublicKey` returns `v` exactly while
`now < t0 + CACHE_DURATION` and absent from `now ≥ t0 + CACHE_DURATION`
on. -/
theorem getCachedPublicKey_ttl (io : IOEnv) (now t0 : Int) (v : String)
    (cid : Nat) (kms : Option String) (s : PKState)
    (hio : io.getFail = false)
    (hmem : tableGet s.memoryCache (getCacheKey cid kms) = some ⟨v, t0⟩ ∨
            tableGet s.memoryCache (getCacheKey cid kms) = none)
    (hsto : storedGet s (getCacheKey cid kms) = some ⟨v, t0⟩ ∨
            storedGet s (getCacheKey cid kms) = none)
    (hone : tableGet s.memoryCache (getCacheKey cid kms) = some ⟨v, t0⟩ ∨
            storedGet s (getCacheKey cid kms) = some ⟨v, t0⟩) :
    ∃ s', getCachedPublicKey io now cid kms s =
      .ok ((if now < t0 + CACHE_DURATION then some v else none), s') := by
  have hgss : gssGet io s = s.stored := by simp [gssGet, hio]
  by_cases hv : now - t0 < CACHE_DURATION
  · have hv' : now < t0 + CACHE_DURATION := by omega
    rcases hmem with hmem | hmem
    · exact ⟨s, by simp [getCachedPublicKey, hmem, isValidCacheEntry, hv, hv']⟩
    · have hst : storedGet s (getCacheKey cid kms) = some ⟨v, t0⟩ := by
        rcases hone with h | h
        · rw [hmem] at h; cases h
        · exact h
      rcases hs : s.stored with _ | t
      · rw [storedGet, hs] at hst; cases hst
      · have htg : tableGet t (getCacheKey cid kms) = some ⟨v, t0⟩ := by
          rw [storedGet, hs] at hst; simpa using hst
        refine ⟨⟨tableSet s.memoryCache (getCacheKey cid kms) ⟨v, t0⟩, s.stored⟩, ?_⟩
        simp [getCachedPublicKey, hmem, hgss, hs, htg, isValidCacheEntry, hv, hv']
  · have hv' : ¬ now < t0 + CACHE_DURATION := by omega
    have hlook :
        (match gssGet io s with
         | some table =>
           match tableGet table (getCacheKey cid kms) with
           | some e =>
             if isValidCacheEntry now e then
               (Except.ok (some e.publicKey,
                 { s with memoryCache :=
                     tableSet s.memoryCache (getCacheKey cid kms) e }) :
                 Except Unit (Option String × PKState))
             else .ok (none, s)
           | none => .ok (none, s)
         | none => .ok (none, s)) = .ok (none, s) := by
      rw [hgss]
      rcases hs : s.stored with _ | t
      · rfl
      · rcases hsto with hsto | hsto <;> rw [storedGet, hs] at hsto <;>
          simp only [Option.some_bind] at hsto <;>
          simp [hsto, isValidCacheEntry, hv]
    rcases hmem with hmem | hmem
    · refine ⟨s, ?_⟩
      rw [getCachedPublicKey]
      simp only [hmem, isValidCacheEntry, hv, decide_eq_true_eq, if_neg, hv']
      simpa [isValidCacheEntry, hv] using hlook
    · refine ⟨s, ?_⟩
      rw [getCachedPublicKey]
      simp only [hmem, hv']
      simpa using hlook

/-- Witness for C4: a fresh memory-tier entry is returned while
unexpired. -/
theorem getCachedPublicKey_ttl_witness :
    ∃ s', getCachedPublicKey ioOk 100 1 none pkMemOnly =
      .ok ((if (100 : Int) < 0 + CACHE_DURATION then some "K" else none), s') :=
  getCachedPublicKey_ttl ioOk 100 0 "K" 1 none pkMemOnly rfl
    (Or.inl rfl) (Or.inr rfl) (Or.inl rfl)

/-- C9.  Lazy promotion: an unexpired entry present only in the
persistent tier is returned by `getCachedPublicKey`, and after the call
the same entry is present in the volatile tier. -/
theorem getCachedPublicKey_promotes (io : IOEnv) (now t0 : Int)
    (v : String) (cid : Nat) (kms : Option String) (s : PKState)
    (hio : io.getFail = false)
    (hmem : tableGet s.memoryCache (getCacheKey cid kms) = none)
    (hsto : storedGet s (getCacheKey cid kms) = some ⟨v, t0⟩)
    (hvalid : now - t0 < CACHE_DURATION) :
    ∃ s', getCachedPublicKey io now cid kms s = .ok (some v, s') ∧
      tableGet s'.memoryCache (getCacheKey cid kms) = some ⟨v, t0⟩ := by
  have hgss : gssGet io s = s.stored := by simp [gssGet, hio]
  rcases hs : s.stored with _ | t
  · rw [storedGet, hs] at hsto; cases hsto
  · have htg : tableGet t (getCacheKey cid kms) = some ⟨v, t0⟩ := by
      rw [storedGet, hs] at hsto; simpa using hsto
    refine ⟨⟨tableSet s.memoryCache (getCacheKey cid kms) ⟨v, t0⟩, s.stored⟩,
      ?_, ?_⟩
    · simp [getCachedPublicKey, hmem, hgss, hs, htg, isValidCacheEntry, hvalid]
    · exact tableGet_tableSet_self _ _ _

/-- Witness for C9: the persistent-only entry of `pkPersistOnly` is
returned and promoted. -/
theorem getCachedPublicKey_promotes_witness :
    ∃ s', getCachedPublicKey ioOk 100 1 none pkPersistOnly = .ok (some "K", s') ∧
      tableGet s'.memoryCache (getCacheKey 1 none) = some ⟨"K", 0⟩ :=
  getCachedPublicKey_promotes ioOk 100 0 "K" 1 none pkPersistOnly rfl rfl rfl
    (by decide)

/-- C5.  Non-destructive merge: a `setCachedPublicKey` of one key
against a persistent table already holding unrelated keys leaves those
keys' entries identical and replaces only the written key. -/
theorem setCachedPublicKey_merge (io : IOEnv) (now : Int) (cid : Nat)
    (v : String) (kms : Option String) (s : PKState) (kB kC : String)
    (eB eC : CacheEntry)
    (hio : io.getFail = false) (hset : io.setFail = false)
    (hB : storedGet s kB = some eB) (hC : storedGet s kC = some eC)
    (hBk : kB ≠ getCacheKey cid kms) (hCk : kC ≠ getCacheKey cid kms) :
    ∃ s', setCachedPublicKey io now cid v kms s = .ok s' ∧
      storedGet s' kB = some eB ∧ storedGet s' kC = some eC ∧
      storedGet s' (getCacheKey cid kms) = some ⟨v, now⟩ := by
  rcases hs : s.stored with _ | t
  · rw [storedGet, hs] at hB; cases hB
  · have hBt : tableGet t kB = some eB := by
      rw [storedGet, hs] at hB; simpa using hB
    have hCt : tableGet t kC = some eC := by
      rw [storedGet, hs] at hC; simpa using hC
    refine ⟨⟨tableSet s.memoryCache (getCacheKey cid kms) ⟨v, now⟩,
      some (tableSet t (getCacheKey cid kms) ⟨v, now⟩)⟩, ?_, ?_, ?_, ?_⟩
    · rw [setCachedPublicKey_eq]
      simp [hset, hio, hs]
    · rw [storedGet]
      simpa using (tableGet_tableSet_ne t (getCacheKey cid kms) kB ⟨v, now⟩ hBk).trans hBt
    · rw [storedGet]
      simpa using (tableGet_tableSet_ne t (getCacheKey cid kms) kC ⟨v, now⟩ hCk).trans hCt
    · rw [storedGet]
      simpa using tableGet_tableSet_self t (getCacheKey cid kms) ⟨v, now⟩

/-- Witness for C5: writing chain 1's key leaves the persistent entries
for keys `7_default` and `8_default` untouched. -/
theorem setCachedPublicKey_merge_witness :
    ∃ s', setCachedPublicKey ioOk 100 1 "NEW" none pkBC = .ok s' ∧
      storedGet s' "7_default" = some ⟨"B", 0⟩ ∧
      storedGet s' "8_default" = some ⟨"C", 0⟩ ∧
      storedGet s' (getCacheKey 1 none) = some ⟨"NEW", 100⟩ :=
  setCachedPublicKey_merge ioOk 100 1 "NEW" none pkBC "7_default" "8_default"
    ⟨"B", 0⟩ ⟨"C", 0⟩ rfl rfl rfl rfl (by decide) (by decide)

/-- C6 amended.  `getCachedPublicKey`, `setCachedPublicKey`,
`cleanupExpiredEntries` and `getCacheStats` never propagate a
persistent-tier failure to their callers; `clearAll` does not throw
only as long as the persistent delete succeeds. -/
theorem cacheOps_noThrow (io : IOEnv) (now : Int) (cid : Nat) (v : String)
    (kms : Option String) (s : PKState)
    (hdel : io.delFail = false) :
    isOkE (getCachedPublicKey io now cid kms s) = true ∧
    isOkE (setCachedPublicKey io now cid v kms s) = true ∧
    isOkE (cleanupExpiredEntries io now s) = true ∧
    isOkE (getCacheStats io now s) = true ∧
    isOkE (clearAll io s) = true := by
  refine ⟨?_, ?_, ?_, ?_, ?_⟩
  · unfold getCachedPublicKey
    dsimp only
    repeat' split
    all_goals rfl
  · rw [setCachedPublicKey_eq]; rfl
  · unfold cleanupExpiredEntries gssSet
    dsimp only
    repeat' split
    all_goals rfl
  · rfl
  · unfold clearAll gssDelete
    simp [hdel, isOkE]

/-- Witness for C6 amended: the operations on `pkBC` with a reliable
store all return normally. -/
theorem cacheOps_noThrow_witness :
    isOkE (getCachedPublicKey ioOk 100 1 none pkBC) = true ∧
    isOkE (setCachedPublicKey ioOk 100 1 "V" none pkBC) = true ∧
    isOkE (cleanupExpiredEntries ioOk 100 pkBC) = true ∧
    isOkE (getCacheStats ioOk 100 pkBC) = true ∧
    isOkE (clearAll ioOk pkBC) = true :=
  cacheOps_noThrow ioOk 100 1 "V" none pkBC rfl

/-- Counterexample for C6 as stated: `clearAll` has no try/catch around
the persistent delete, and `GenericStringStorage.delete` rethrows, so a
persistent-tier delete failure propagates to `clearAll`'s caller as an
exception instead of degrading to a no-op. -/
theorem clearAll_throws_cex :
    clearAll ioDelFail ⟨[], none⟩ = .error () := rfl

/-- A valid memory-tier hit is returned without touching the state. -/
theorem getCachedPublicKey_memHit (io : IOEnv) (now : Int) (cid : Nat)
    (kms : Option String) (st : PKState) (v : String) (t0 : Int)
    (hm : tableGet st.memoryCache (getCacheKey cid kms) = some ⟨v, t0⟩)
    (hv : now - t0 < CACHE_DURATION) :
    getCachedPublicKey io now cid kms st = .ok (some v, st) := by
  simp [getCachedPublicKey, hm, isValidCacheEntry, hv]

/-- A set under one spelling of the authority address is immediately
visible to a get under any spelling with the same canonical key. -/
theorem set_then_get_hit (io : IOEnv) (now : Int) (cid : Nat) (v : String)
    (kms1 kms2 : Option String) (s : PKState)
    (hk : getCacheKey cid kms2 = getCacheKey cid kms1) :
    ∃ s', setCachedPublicKey io now cid v kms1 s = .ok s' ∧
      getCachedPublicKey io now cid kms2 s' = .ok (some v, s') := by
  rw [setCachedPublicKey_eq]
  refine ⟨_, rfl, ?_⟩
  refine getCachedPublicKey_memHit io now cid kms2 _ v now ?_
    (by unfold CACHE_DURATION; omega)
  rw [hk]
  by_cases hf : io.setFail <;> simp [hf, tableGet_tableSet_self]

/-- C10.  An empty-string authority address canonicalizes to the same
cache key as an absent one (both take the `'default'` token), so gets
and sets under the two spellings observe each other. -/
theorem getCacheKey_empty_canonical :
    ∀ cid : Nat, getCacheKey cid (some "") = getCacheKey cid none ∧
    (∀ (io : IOEnv) (now : Int) (v : String) (s : PKState),
      ∃ s', setCachedPublicKey io now cid v none s = .ok s' ∧
        getCachedPublicKey io now cid (some "") s' = .ok (some v, s')) ∧
    (∀ (io : IOEnv) (now : Int) (v : String) (s : PKState),
      ∃ s', setCachedPublicKey io now cid v (some "") s = .ok s' ∧
        getCachedPublicKey io now cid none s' = .ok (some v, s')) := by
  intro cid
  have hkey : getCacheKey cid (some "") = getCacheKey cid none := by
    simp [getCacheKey]
  exact ⟨hkey,
    fun io now v s => set_then_get_hit io now cid v none (some "") s hkey,
    fun io now v s => set_then_get_hit io now cid v (some "") none s hkey.symm⟩

/-- C7.  The facade's encryption wrappers validate synchronously:
out-of-range or wrongly typed arguments produce a typed error and never
delegate (producing an `EncCall` is the only way the external instance
is invoked); in-range arguments delegate the exact value. -/
theorem encrypt_validation :
    (∀ n : Int, 0 ≤ n → n ≤ 4294967295 →
       encrypt32 (.num true n) = .ok (.enc32 n)) ∧
    (∀ n : Int, n < 0 ∨ 4294967295 < n →
       encrypt32 (.num true n) =
         .error "encrypt32 value must be between 0 and 2^32-1") ∧
    (∀ v : JSVal, (∀ n : Int, v ≠ .num true n) →
       encrypt32 v = .error "encrypt32 requires an integer value") ∧
    (∀ n : Int, 0 ≤ n → n ≤ 18446744073709551615 →
       encrypt64 (.big n) = .ok (.enc64 n)) ∧
    (∀ n : Int, n < 0 ∨ 18446744073709551615 < n →
       encrypt64 (.big n) =
         .error "encrypt64 value must be between 0 and 2^64-1") ∧
    (∀ v : JSVal, (∀ n : Int, v ≠ .big n) →
       encrypt64 v = .error "encrypt64 requires a bigint value") ∧
    (∀ b : Bool, encryptBool (.boolv b) = .ok (.encBool b)) ∧
    (∀ v : JSVal, (∀ b : Bool, v ≠ .boolv b) →
       encryptBool v = .error "encryptBool requires a boolean value") := by
  refine ⟨?_, ?_, ?_, ?_, ?_, ?_, ?_, ?_⟩
  · intro n h0 h1
    have h : ¬ (n < 0 ∨ n > 4294967295) := by omega
    simp [encrypt32, h]
  · intro n h
    have h' : n < 0 ∨ n > 4294967295 := by omega
    simp [encrypt32, h']
  · intro v hv
    match v with
    | .num true n => exact absurd rfl (hv n)
    | .num false _ => rfl
    | .big _ => rfl
    | .boolv _ => rfl
    | .strv _ => rfl
    | .undef => rfl
  · intro n h0 h1
    have h : ¬ (n < 0 ∨ n > 18446744073709551615) := by omega
    simp [encrypt64, h]
  · intro n h
    have h' : n < 0 ∨ n > 18446744073709551615 := by omega
    simp [encrypt64, h']
  · intro v hv
    match v with
    | .big n => exact absurd rfl (hv n)
    | .num _ _ => rfl
    | .boolv _ => rfl
    | .strv _ => rfl
    | .undef => rfl
  · intro b; rfl
  · intro v hv
    match v with
    | .boolv b => exact absurd rfl (hv b)
    | .num _ _ => rfl
    | .big _ => rfl
    | .strv _ => rfl
    | .undef => rfl

/-- Witness for C7: concrete accepted and rejected inputs for each
wrapper. -/
theorem encrypt_validation_witness :
    encrypt32 (.num true 7) = .ok (.enc32 7) ∧
    encrypt32 (.num true (-1)) =
      .error "encrypt32 value must be between 0 and 2^32-1" ∧
    encrypt32 (.strv "x") = .error "encrypt32 requires an integer value" ∧
    encrypt64 (.big 7) = .ok (.enc64 7) ∧
    encrypt64 (.big 18446744073709551616) =
      .error "encrypt64 value must be between 0 and 2^64-1" ∧
    encrypt64 (.num true 7) = .error "encrypt64 requires a bigint value" ∧
    encryptBool (.boolv true) = .ok (.encBool true) ∧
    encryptBool (.num true 0) = .error "encryptBool requires a boolean value" :=
  ⟨encrypt_validation.1 7 (by decide) (by decide),
   encrypt_validation.2.1 (-1) (Or.inl (by decide)),
   encrypt_validation.2.2.1 (.strv "x") (fun n h => JSVal.noConfusion h),
   encrypt_validation.2.2.2.1 7 (by decide) (by decide),
   encrypt_validation.2.2.2.2.1 18446744073709551616 (Or.inr (by decide)),
   encrypt_validation.2.2.2.2.2.1 (.num true 7) (fun n h => JSVal.noConfusion h),
   encrypt_validation.2.2.2.2.2.2.1 true,
   encrypt_validation.2.2.2.2.2.2.2 (.num true 0) (fun b h => JSVal.noConfusion h)⟩

/-- Counterexample for C8 as stated: with no chain id supplied and a
failing network query, `envNoChainId`'s construction succeeds and its
facade reports the chain id unset — but the configuration handed to the
external builder does not proceed with the chain id unset: the generic
fallback profile substitutes `actualChainId || 1337`, so `initSDK`
receives the concrete chain id 1337. -/
theorem chainDetection_cfg_cex :
    (createFhevmInstance envNoChainId).1 = .ok ⟨none, false, false, none⟩ ∧
    Effect.initCall (.generic 1337 none none none) ∈
      (createFhevmInstance envNoChainId).2 := by
  refine ⟨rfl, ?_⟩
  have heffs : (createFhevmInstance envNoChainId).2 =
      [Effect.initCall (.generic 1337 none none none),
       Effect.createCall (.generic 1337 none none none)] := rfl
  rw [heffs]
  simp

/-- C8 amended.  When the chain id is not supplied and the provider's
network query fails, construction absorbs the failure and proceeds: it
completes successfully (all later steps succeeding), the facade reports
the chain id unset, but the generic configuration handed to the
external builder substitutes the fallback chain id 1337. -/
theorem chainDetection_nonfatal (env : RunEnv)
    (hchain : env.chainId = none) (hnet : env.networkResult = none)
    (habort : env.abortTime = none) (hload : env.sdkLoadOk = true)
    (hwin : env.sdkOnWindow = true) (hinit : env.initOk = true)
    (hcreate : env.createOk = true) :
    ∃ inst effs, createFhevmInstance env = (.ok inst, effs) ∧
      inst.actualChainId = none ∧
      Effect.initCall (.generic 1337 env.publicKeyOrAddress
        env.kmsContractAddress env.aclContractAddress) ∈ effs := by
  have hacid : detectChainId env = none := by
    simp [detectChainId, hchain, hnet]
  have hpk : seedKey env none = env.publicKeyOrAddress := by
    simp [seedKey, truthyN]
  have hcfg : selectCfg env none (seedKey env none) =
      .generic 1337 env.publicKeyOrAddress env.kmsContractAddress
        env.aclContractAddress := by
    rw [hpk]; simp [selectCfg, genericChainId]
  refine ⟨⟨none, false, false, env.publicKeyOrAddress⟩,
    cleanupEffects env ++
      [Effect.initCall (.generic 1337 env.publicKeyOrAddress
        env.kmsContractAddress env.aclContractAddress),
       Effect.createCall (.generic 1337 env.publicKeyOrAddress
        env.kmsContractAddress env.aclContractAddress)], ?_, rfl, ?_⟩
  · unfold createFhevmInstance tailPhase
    rw [habort, hload, hwin, hacid, hcfg, hpk, hinit, hcreate]
    simp [sigAborted, writeThroughEffects, truthyN]
  · simp

/-- Witness for C8 amended at `envNoChainId`. -/
theorem chainDetection_nonfatal_witness :
    ∃ inst effs, createFhevmInstance envNoChainId = (.ok inst, effs) ∧
      inst.actualChainId = none ∧
      Effect.initCall (.generic 1337 envNoChainId.publicKeyOrAddress
        envNoChainId.kmsContractAddress envNoChainId.aclContractAddress) ∈ effs :=
  chainDetection_nonfatal envNoChainId rfl rfl rfl rfl rfl rfl rfl

/-- Counterexample for C1 as stated: in `envAbortDuringKeyFetch` the
abort signal is already set at the `getPublicKey` suspension (point 11,
after the last `signal?.aborted` check at point 10), yet the attempt
still performs the write-through cache write of the authoritative key —
a cache write after the cancellation flag is set.  The session is
nevertheless not published. -/
theorem abortedWrite_cex :
    sigAborted envAbortDuringKeyFetch.abortTime 11 = true ∧
    Effect.writeThrough 5 none "PK" ∈
      (createFhevmInstance envAbortDuringKeyFetch).2 ∧
    published envAbortDuringKeyFetch = false := by decide

/-- C1 amended.  Once the abort signal is set before resolution, the
attempt never publishes; it performs no write-through if the signal was
set at or before the final check (point 10), and touches neither the
builder nor the shared cache at all if the signal was set at or before
the check preceding the cache phase (point 4).  Only an abort arriving
strictly between the final check and the write-through (during the
`getPublicKey` await) fails to prevent the cache write. -/
theorem abort_no_publish_no_write (env : RunEnv) (a : Nat)
    (h : env.abortTime = some a) :
    (a ≤ 13 → published env = false) ∧
    (a ≤ 10 → ∀ (c : Nat) (k : Option String) (v : String),
       Effect.writeThrough c k v ∉ (createFhevmInstance env).2) ∧
    (a ≤ 4 → (createFhevmInstance env).2 = []) := by
  refine ⟨?_, ?_, ?_⟩
  · intro ha
    simp [published, sigAborted, h, ha]
  · intro ha c k v
    have h10 : sigAborted env.abortTime 10 = true := by
      rw [h]; simpa [sigAborted] using ha
    have hcl : Effect.writeThrough c k v ∉ cleanupEffects env := by
      by_cases hcc : env.cleanupChanges <;> simp [cleanupEffects, hcc]
    unfold createFhevmInstance
    split_ifs with h0 h1 h2 h3 h4
    · simp
    · simp
    · simp
    · simp
    · simp
    · unfold tailPhase
      rw [h10]
      split_ifs with a6 aI a8 aC a10
      · exact hcl
      · simp only [List.mem_append, List.mem_cons, List.not_mem_nil, or_false]
        rintro (hm | hm)
        · exact hcl hm
        · cases hm
      · simp only [List.mem_append, List.mem_cons, List.not_mem_nil, or_false]
        rintro (hm | hm)
        · exact hcl hm
        · cases hm
      · simp only [List.mem_append, List.mem_cons, List.not_mem_nil, or_false]
        rintro (hm | hm | hm)
        · exact hcl hm
        · cases hm
        · cases hm
      · simp only [List.mem_append, List.mem_cons, List.not_mem_nil, or_false]
        rintro (hm | hm | hm)
        · exact hcl hm
        · cases hm
        · cases hm
      · exact absurd rfl a10
  · intro ha
    unfold createFhevmInstance
    split_ifs with h0 h1 h2 h3 h4
    · rfl
    · rfl
    · rfl
    · rfl
    · rfl
    · exfalso
      rw [h] at h4
      simp only [sigAborted, decide_eq_true_eq] at h4
      omega

/-- Witness for C1 amended at `envAbortEarly` (abort at point 3). -/
theorem abort_no_publish_no_write_witness :
    ((3 : Nat) ≤ 13 → published envAbortEarly = false) ∧
    ((3 : Nat) ≤ 10 → ∀ (c : Nat) (k : Option String) (v : String),
       Effect.writeThrough c k v ∉ (createFhevmInstance envAbortEarly).2) ∧
    ((3 : Nat) ≤ 4 → (createFhevmInstance envAbortEarly).2 = []) :=
  abort_no_publish_no_write envAbortEarly 3 rfl

/-- C2.  Two starts in rapid succession: the first attempt's controller
is aborted by the second start, so the first attempt's eventual
resolution — success or failure, before or after the second attempt
publishes — changes no observable state, while the second attempt's
success publishes its session (the attempt bound to the second
identity); exactly one outcome is ever published. -/
theorem startTwice_secondWins (s0 : HookState) (p1 p2 : Nat)
    (c1 c2 : Option Nat) (sess1 sess2 : Session) (e1 : String)
    (hidle : s0.ctrl = none)
    (hfresh : ∀ i ∈ s0.aborted, i < s0.nextId) :
    ∃ s1 a1 s2 a2 sp,
      startOrRefresh (some p1) c1 s0 = (s1, some a1) ∧
      startOrRefresh (some p2) c2 s1 = (s2, some a2) ∧
      a1.provider = p1 ∧ a2.provider = p2 ∧
      resolveSuccess a1 sess1 s2 = .ok s2 ∧
      resolveFailure a1 e1 s2 = .ok s2 ∧
      resolveSuccess a2 sess2 s2 = .ok sp ∧
      sp.inst = some sess2 ∧ sp.status = .ready ∧ sp.err = none ∧
      resolveSuccess a1 sess1 sp = .ok sp ∧
      resolveFailure a1 e1 sp = .ok sp := by
  have hmem2 : s0.nextId + 1 ∉ s0.nextId :: s0.aborted := by
    simp only [List.mem_cons, not_or]
    constructor
    · omega
    · intro hin
      exact absurd (hfresh _ hin) (by omega)
  refine ⟨⟨none, .loading, none, some p1, c1, some s0.nextId, s0.aborted,
            s0.nextId + 1⟩,
          ⟨s0.nextId, p1, c1⟩,
          ⟨none, .loading, none, some p2, c2, some (s0.nextId + 1),
            s0.nextId :: s0.aborted, s0.nextId + 2⟩,
          ⟨s0.nextId + 1, p2, c2⟩,
          ⟨some sess2, .ready, none, some p2, c2, some (s0.nextId + 1),
            s0.nextId :: s0.aborted, s0.nextId + 2⟩,
          ?_, ?_, rfl, rfl, ?_, ?_, ?_, rfl, rfl, rfl, ?_, ?_⟩
  · simp [startOrRefresh, refresh, runMainEffect, hidle]
  · simp [startOrRefresh, refresh, runMainEffect]
  · simp [resolveSuccess]
  · simp [resolveFailure]
  · simp [resolveSuccess, hmem2]
  · simp [resolveSuccess]
  · simp [resolveFailure]

/-- Witness for C2 from the quiescent state with identities 1 and 2. -/
theorem startTwice_secondWins_witness :
    ∃ s1 a1 s2 a2 sp,
      startOrRefresh (some 1) none hookIdle = (s1, some a1) ∧
      startOrRefresh (some 2) none s1 = (s2, some a2) ∧
      a1.provider = 1 ∧ a2.provider = 2 ∧
      resolveSuccess a1 ⟨10⟩ s2 = .ok s2 ∧
      resolveFailure a1 "boom" s2 = .ok s2 ∧
      resolveSuccess a2 ⟨20⟩ s2 = .ok sp ∧
      sp.inst = some ⟨20⟩ ∧ sp.status = .ready ∧ sp.err = none ∧
      resolveSuccess a1 ⟨10⟩ sp = .ok sp ∧
      resolveFailure a1 "boom" sp = .ok sp :=
  startTwice_secondWins hookIdle 1 2 none none ⟨10⟩ ⟨20⟩ "boom" rfl (by simp [hookIdle])

/-- Counterexample for C3 as stated: in `hookMismatch` attempt 0's
signal is not aborted and its provider snapshot (1) differs from the
current provider (2); the claim says such a result is discarded with
only a log message and no error is raised, but the `.then` handler's
`_assert` throws an assertion `Error`. -/
theorem resolveSuccess_mismatch_throws_cex :
    resolveSuccess ⟨0, 1, none⟩ ⟨7⟩ hookMismatch =
      .error "Assertion failed: Provider should not have changed during creation" := by
  simp [resolveSuccess, hookMismatch]

/-- C3 amended.  A successful resolution whose signal was never aborted
publishes the session and transitions to ready when the identity
snapshot still equals the current identity; when it does not match, no
observable state changes but the handler raises an assertion error (it
does not merely log).  (In the hook this mismatch state is unreachable,
because every identity change aborts the previous controller first.) -/
theorem resolveSuccess_currentOrAssert (a : Attempt) (sess : Session)
    (s : HookState) (hn : a.ctrlId ∉ s.aborted) :
    (s.providerRef = some a.provider →
       resolveSuccess a sess s =
         .ok { s with inst := some sess, err := none, status := .ready }) ∧
    (s.providerRef ≠ some a.provider →
       resolveSuccess a sess s =
         .error "Assertion failed: Provider should not have changed during creation") := by
  constructor
  · intro hp; simp [resolveSuccess, hn, hp]
  · intro hp; simp [resolveSuccess, hn, hp]

/-- Witness for C3 amended at `hookCurrent` (matching identity). -/
theorem resolveSuccess_currentOrAssert_witness :
    (hookCurrent.providerRef = some (1 : Nat) →
       resolveSuccess ⟨0, 1, none⟩ ⟨7⟩ hookCurrent =
         .ok { hookCurrent with
               inst := some ⟨7⟩, err := none, status := .ready }) ∧
    (hookCurrent.providerRef ≠ some (1 : Nat) →
       resolveSuccess ⟨0, 1, none⟩ ⟨7⟩ hookCurrent =
         .error "Assertion failed: Provider should not have changed during creation") :=
  resolveSuccess_currentOrAssert ⟨0, 1, none⟩ ⟨7⟩ hookCurrent
    (by simp [hookCurrent])
